import Mathlib

/-!
Shallow embedding of `src/Solution.ts` (an in-memory library catalog manager,
class `LibraryManager`), together with theorems checking the specification's
claims about it.

Modelling conventions:
* The three mutable collections of `LibraryManager` (`books`, `loans`,
  `observers`) form the state; methods become functions from the state to a new
  state plus a list of observable `Event`s.
* `console.log` / `console.warn` / `console.error` become `Event.log` /
  `Event.warn` / `Event.error`, carrying the exact message text (template
  interpolation rendered with `++`).
* A call to the injected `IEmailService.sendEmail` (field `this.emailService`)
  would be the event `Event.emailServiceSend`; a call to `User.update` (whose
  body is a `console.log` naming the observer) would be
  `Event.observerUpdate`.
* The TypeScript `Date` is modelled as a natural-number timestamp; `new Date()`
  in `loanBook` becomes an explicit `now` parameter.
* TypeScript compares `User` objects by reference in `indexOf`; observers are
  modelled as values compared by their contents.
-/

/-- Book record of the catalog: class `Book` in `Solution.ts`
(fields `title`, `author`, `ISBN`). -/
structure Book where
  title : String
  author : String
  ISBN : String
deriving DecidableEq, Repr

/-- Loan record: class `Loan` in `Solution.ts`
(fields `ISBN`, `userID`, `date`). -/
structure Loan where
  ISBN : String
  userID : String
  date : Nat
deriving DecidableEq, Repr

/-- Observer: class `User` in `Solution.ts`, holding a `name`. -/
structure User where
  name : String
deriving DecidableEq, Repr

/-- Observable side effects of the `LibraryManager` methods. -/
inductive Event where
  | log (message : String)
  | warn (message : String)
  | error (message : String)
  | emailServiceSend (userID message : String)
  | observerUpdate (observerName bookTitle : String)
deriving DecidableEq, Repr

/-- Mutable state of class `LibraryManager`: its three collections
(`books`, `loans`, `observers`). -/
structure LibraryManager where
  books : List Book
  loans : List Loan
  observers : List User
deriving DecidableEq, Repr

/-- Fresh `LibraryManager`: all three collections start as empty arrays. -/
def initLib : LibraryManager := { books := [], loans := [], observers := [] }

/-- Helper for JavaScript `String.prototype.includes`: does the second
character list occur at the head of the first. -/
def startsWithL : List Char → List Char → Bool
  | _, [] => true
  | [], _ :: _ => false
  | a :: as, b :: bs => a == b && startsWithL as bs

/-- Does `needle` occur as a contiguous run anywhere in the haystack. -/
def includesL (needle : List Char) : List Char → Bool
  | [] => startsWithL [] needle
  | c :: cs => startsWithL (c :: cs) needle || includesL needle cs

/-- JavaScript `s.includes(sub)`: substring containment. -/
def strIncludes (s sub : String) : Bool := includesL sub.data s.data

/-- `Array.prototype.findIndex` followed by `splice(index, 1)`: remove the
first element satisfying `p`, returning it together with the remaining list;
`none` when `findIndex` yields `-1`. -/
def spliceFirst {α : Type} (p : α → Bool) : List α → Option (α × List α)
  | [] => none
  | x :: xs =>
    if p x then some (x, xs)
    else
      match spliceFirst p xs with
      | some (y, ys) => some (y, x :: ys)
      | none => none

/-- `LibraryManager.addObserver`: `this.observers.push(user)`. -/
def addObserver (s : LibraryManager) (user : User) : LibraryManager :=
  { s with observers := s.observers ++ [user] }

/-- `LibraryManager.removeObserver`: `indexOf` then `splice(index, 1)` when the
index is not `-1`; otherwise nothing happens. -/
def removeObserver (s : LibraryManager) (user : User) : LibraryManager :=
  match spliceFirst (fun x => x == user) s.observers with
  | some (_, rest) => { s with observers := rest }
  | none => s

/-- `LibraryManager.notifyObservers`: `forEach observer.update(bookTitle)`.
The method exists in the source but no other method calls it. -/
def notifyObservers (s : LibraryManager) (bookTitle : String) : List Event :=
  s.observers.map (fun observer => Event.observerUpdate observer.name bookTitle)

/-- `LibraryManager.sendEmail`, the private method: a plain `console.log`; it
does not touch the injected `this.emailService`. -/
def sendEmail (userID message : String) : List Event :=
  [Event.log ("Enviando email a " ++ userID ++ ": " ++ message)]

/-- `LibraryManager.addBook`: reject with a `console.error` when some stored
book already has this `ISBN`; otherwise push a new record and log. The method
body never calls `notifyObservers`. -/
def addBook (s : LibraryManager) (title author ISBN : String) :
    LibraryManager × List Event :=
  if s.books.any (fun book => book.ISBN == ISBN) then
    (s, [Event.error ("[ERROR] El libro con ISBN " ++ ISBN ++ " ya existe en la biblioteca.")])
  else
    ({ s with books := s.books ++ [{ title := title, author := author, ISBN := ISBN }] },
     [Event.log ("[INFO] Libro agregado: " ++ title ++ " (ISBN: " ++ ISBN ++ ")")])

/-- `LibraryManager.removeBook`: `findIndex` on the `ISBN`; when found, splice
the record out and log its title, otherwise warn. -/
def removeBook (s : LibraryManager) (ISBN : String) : LibraryManager × List Event :=
  match spliceFirst (fun b => b.ISBN == ISBN) s.books with
  | some (removedBook, rest) =>
    ({ s with books := rest },
     [Event.log ("[INFO] Libro eliminado: " ++ removedBook.title ++ " (ISBN: " ++ ISBN ++ ")")])
  | none =>
    (s, [Event.warn ("[WARNING] Intento de eliminar un libro inexistente con ISBN: " ++ ISBN)])

/-- `LibraryManager.searchByTitle`: filter by substring on the title. The
method mutates nothing, so the manager is returned unchanged alongside the
result. -/
def searchByTitle (s : LibraryManager) (title : String) :
    List Book × LibraryManager :=
  (s.books.filter (fun book => strIncludes book.title title), s)

/-- `LibraryManager.searchByAuthor`: filter by substring on the author. -/
def searchByAuthor (s : LibraryManager) (author : String) :
    List Book × LibraryManager :=
  (s.books.filter (fun book => strIncludes book.author author), s)

/-- `LibraryManager.searchByISBN`: first exact match, if any. -/
def searchByISBN (s : LibraryManager) (ISBN : String) :
    Option Book × LibraryManager :=
  (s.books.find? (fun book => book.ISBN == ISBN), s)

/-- `LibraryManager.search`: filter by title substring, author substring or
exact `ISBN`, then log either the result count or a no-results message. -/
def search (s : LibraryManager) (query : String) :
    List Book × List Event × LibraryManager :=
  let results := s.books.filter (fun book =>
    strIncludes book.title query || strIncludes book.author query || book.ISBN == query)
  if results.length > 0 then
    (results,
     [Event.log ("[INFO] Búsqueda exitosa para \"" ++ query ++ "\". Resultados encontrados: "
       ++ toString results.length)], s)
  else
    (results,
     [Event.log ("[INFO] Búsqueda para \"" ++ query ++ "\" no produjo resultados.")], s)

/-- `LibraryManager.loanBook`: when a book with this `ISBN` exists, push a new
loan stamped with the current time, log, and call the private `sendEmail`;
otherwise warn. -/
def loanBook (s : LibraryManager) (ISBN userID : String) (now : Nat) :
    LibraryManager × List Event :=
  match s.books.find? (fun b => b.ISBN == ISBN) with
  | some book =>
    ({ s with loans := s.loans ++ [{ ISBN := ISBN, userID := userID, date := now }] },
     Event.log ("[INFO] Préstamo registrado: " ++ book.title ++ " a " ++ userID)
       :: sendEmail userID ("Has solicitado el libro " ++ book.title))
  | none =>
    (s, [Event.warn ("[WARNING] Intento de préstamo de un libro inexistente con ISBN: " ++ ISBN)])

/-- `LibraryManager.returnBook`: splice out the first loan matching both
`ISBN` and `userID` (warn when there is none), log the removal, then — with
the loan removal already committed — either call the private `sendEmail` when
the book still exists or log a `console.error` when it does not. -/
def returnBook (s : LibraryManager) (ISBN userID : String) :
    LibraryManager × List Event :=
  match spliceFirst (fun loan => loan.ISBN == ISBN && loan.userID == userID) s.loans with
  | some (removedLoan, rest) =>
    let logged := Event.log ("[INFO] Devolución registrada: " ++ toString removedLoan.date
      ++ ": Usuario " ++ userID ++ ", Libro ISBN " ++ ISBN)
    match s.books.find? (fun b => b.ISBN == ISBN) with
    | some _ =>
      ({ s with loans := rest },
       logged :: sendEmail userID ("Has devuelto el libro con ISBN " ++ ISBN ++ ". ¡Gracias!"))
    | none =>
      ({ s with loans := rest },
       [logged,
        Event.error ("[ERROR] El libro con ISBN " ++ ISBN ++ " no se encontró en la biblioteca.")])
  | none =>
    (s, [Event.warn ("[WARNING] Intento de devolución de un libro no prestado: ISBN " ++ ISBN
      ++ ", Usuario " ++ userID)])

/-- `LibraryManager.printAllBooks`: one `console.log` per book, no mutation. -/
def printAllBooks (s : LibraryManager) : List Event × LibraryManager :=
  (s.books.map (fun book => Event.log ("Título: " ++ book.title ++ ", Autor: " ++ book.author
    ++ ", ISBN: " ++ book.ISBN)), s)

/-- `LibraryManager.printAllLoans`: one `console.log` per loan, no mutation. -/
def printAllLoans (s : LibraryManager) : List Event × LibraryManager :=
  (s.loans.map (fun loan => Event.log ("ISBN: " ++ loan.ISBN ++ ", Usuario: " ++ loan.userID
    ++ ", Fecha: " ++ toString loan.date)), s)

/-- One call to a public method of `LibraryManager`, for reasoning about
arbitrary operation sequences. -/
inductive Op where
  | addBook (title author ISBN : String)
  | removeBook (ISBN : String)
  | loanBook (ISBN userID : String) (now : Nat)
  | returnBook (ISBN userID : String)
  | addObserver (user : User)
  | removeObserver (user : User)
  | searchByTitle (q : String)
  | searchByAuthor (q : String)
  | searchByISBN (q : String)
  | search (q : String)
  | printAllBooks
  | printAllLoans
deriving DecidableEq, Repr

/-- State reached after one operation. -/
def step (s : LibraryManager) : Op → LibraryManager
  | .addBook t a i => (addBook s t a i).1
  | .removeBook i => (removeBook s i).1
  | .loanBook i u n => (loanBook s i u n).1
  | .returnBook i u => (returnBook s i u).1
  | .addObserver u => addObserver s u
  | .removeObserver u => removeObserver s u
  | .searchByTitle q => (searchByTitle s q).2
  | .searchByAuthor q => (searchByAuthor s q).2
  | .searchByISBN q => (searchByISBN s q).2
  | .search q => (search s q).2.2
  | .printAllBooks => (printAllBooks s).2
  | .printAllLoans => (printAllLoans s).2

/-- State reached after a sequence of operations. -/
def execList (s : LibraryManager) : List Op → LibraryManager
  | [] => s
  | op :: ops => execList (step s op) ops

/-- At most one `Book` per `ISBN` value: pairwise distinct `ISBN` fields. -/
def booksUniqueISBN (s : LibraryManager) : Prop :=
  s.books.Pairwise (fun a b => a.ISBN ≠ b.ISBN)

/-- Concrete fixture: the book built in the demo code at the end of
`Solution.ts`. -/
def gatsby : Book :=
  { title := "El Gran Gatsby", author := "F. Scott Fitzgerald", ISBN := "123456789" }

/-- Concrete fixture: one registered observer. -/
def ana : User := { name := "Ana" }

/-- Concrete fixture: catalog holding only `gatsby`. -/
def libWithGatsby : LibraryManager := { books := [gatsby], loans := [], observers := [] }

/-- Concrete fixture: empty catalog with one registered observer. -/
def libWithObserver : LibraryManager := { books := [], loans := [], observers := [ana] }

/-- Concrete fixture: the loan created in the demo code. -/
def loan0 : Loan := { ISBN := "123456789", userID := "user01", date := 0 }

/-- Concrete fixture: `gatsby` on loan to `user01`. -/
def libWithLoan : LibraryManager :=
  { books := [gatsby], loans := [loan0], observers := [] }

/-- Concrete fixture: the loan outstanding while its book is gone from the
catalog (the stale-reference condition tolerated by `returnBook`). -/
def libLoanNoBook : LibraryManager :=
  { books := [], loans := [loan0], observers := [] }

/-- A list with no element satisfying `p` splices to `none`
(`findIndex` yields `-1`). -/
theorem spliceFirst_none_of {α : Type} (p : α → Bool) (l : List α)
    (h : ∀ x ∈ l, p x = false) : spliceFirst p l = none := by
  induction l with
  | nil => rfl
  | cons x xs ih =>
    have hx := h x (List.mem_cons_self x xs)
    have hrec := ih (fun y hy => h y (List.mem_cons_of_mem x hy))
    simp [spliceFirst, hx, hrec]

/-- Splicing at the first match: when the list splits as
`pre ++ x :: post` with `x` the first element satisfying `p`, the splice
removes exactly `x`. -/
theorem spliceFirst_some_of {α : Type} (p : α → Bool) (pre : List α) (x : α)
    (post : List α) (hx : p x = true) (hpre : ∀ y ∈ pre, p y = false) :
    spliceFirst p (pre ++ x :: post) = some (x, pre ++ post) := by
  induction pre with
  | nil => simp [spliceFirst, hx]
  | cons a as ih =>
    have ha := hpre a (List.mem_cons_self a as)
    have hrec := ih (fun y hy => hpre y (List.mem_cons_of_mem a hy))
    simp [spliceFirst, ha, hrec]

/-- The list remaining after a successful splice is a sublist of the
original. -/
theorem spliceFirst_sublist {α : Type} (p : α → Bool) :
    ∀ (l : List α) (y : α) (ys : List α),
      spliceFirst p l = some (y, ys) → List.Sublist ys l
  | [], y, ys, h => by simp [spliceFirst] at h
  | x :: xs, y, ys, h => by
    cases hp : p x with
    | true =>
      simp [spliceFirst, hp] at h
      rw [← h.2]
      exact List.sublist_cons_self x xs
    | false =>
      cases hspl : spliceFirst p xs with
      | none => simp [spliceFirst, hp, hspl] at h
      | some v =>
        obtain ⟨z, zs⟩ := v
        simp [spliceFirst, hp, hspl] at h
        rw [← h.2]
        exact (spliceFirst_sublist p xs z zs hspl).cons₂ x

/-- The empty needle is found in every haystack
(JavaScript `s.includes("")` is `true`). -/
theorem includesL_nil (hay : List Char) : includesL [] hay = true := by
  cases hay with
  | nil => rfl
  | cons c cs => simp [includesL, startsWithL]

/-- `strIncludes s "" = true` for every string. -/
theorem strIncludes_empty (s : String) : strIncludes s "" = true :=
  includesL_nil s.data

/-- The loan-match predicate of `returnBook` is false exactly when the pair
does not match. -/
theorem loanMatch_false (l : Loan) (i u : String)
    (h : ¬(l.ISBN = i ∧ l.userID = u)) :
    (l.ISBN == i && l.userID == u) = false := by
  rw [Bool.eq_false_iff]
  intro htrue
  simp only [Bool.and_eq_true, beq_iff_eq] at htrue
  exact h htrue

/-- `loanBook` never changes the book collection. -/
theorem loanBook_books (s : LibraryManager) (i u : String) (n : Nat) :
    (loanBook s i u n).1.books = s.books := by
  cases hf : s.books.find? (fun b => b.ISBN == i) <;> simp [loanBook, hf]

/-- `returnBook` never changes the book collection. -/
theorem returnBook_books (s : LibraryManager) (i u : String) :
    (returnBook s i u).1.books = s.books := by
  cases hspl : spliceFirst (fun loan => loan.ISBN == i && loan.userID == u) s.loans with
  | none => simp [returnBook, hspl]
  | some v =>
    obtain ⟨l, rest⟩ := v
    cases hf : s.books.find? (fun b => b.ISBN == i) <;> simp [returnBook, hspl, hf]

/-- `search` returns the manager unchanged. -/
theorem search_state (s : LibraryManager) (q : String) : (search s q).2.2 = s := by
  simp only [search]
  split <;> rfl

/-- Every single operation preserves pairwise-distinct ISBNs in the book
collection. -/
theorem step_books_unique (s : LibraryManager) (op : Op)
    (h : booksUniqueISBN s) : booksUniqueISBN (step s op) := by
  cases op with
  | addBook t a i =>
    show booksUniqueISBN (addBook s t a i).1
    by_cases hdup : s.books.any (fun book => book.ISBN == i) = true
    · simpa [addBook, hdup] using h
    · have hall : ∀ b ∈ s.books, b.ISBN ≠ i := by
        intro b hb hbi
        exact hdup (List.any_eq_true.mpr ⟨b, hb, by simp [hbi]⟩)
      have hdup' : s.books.any (fun book => book.ISBN == i) = false := by
        rw [Bool.eq_false_iff]; exact hdup
      simp only [booksUniqueISBN, addBook, hdup', Bool.false_eq_true, if_false]
      refine List.pairwise_append.mpr ⟨h, List.pairwise_singleton _ _, ?_⟩
      intro a ha b hb
      simp only [List.mem_singleton] at hb
      subst hb
      exact hall a ha
  | removeBook i =>
    show booksUniqueISBN (removeBook s i).1
    cases hspl : spliceFirst (fun b => b.ISBN == i) s.books with
    | none => simpa [removeBook, hspl] using h
    | some v =>
      obtain ⟨b, rest⟩ := v
      simp only [booksUniqueISBN, removeBook, hspl]
      exact List.Pairwise.sublist (spliceFirst_sublist _ s.books b rest hspl) h
  | loanBook i u n =>
    show booksUniqueISBN (loanBook s i u n).1
    unfold booksUniqueISBN
    rw [loanBook_books]
    exact h
  | returnBook i u =>
    show booksUniqueISBN (returnBook s i u).1
    unfold booksUniqueISBN
    rw [returnBook_books]
    exact h
  | addObserver u => exact h
  | removeObserver u =>
    show booksUniqueISBN (removeObserver s u)
    cases hspl : spliceFirst (fun x => x == u) s.observers with
    | none => simpa [removeObserver, hspl] using h
    | some v =>
      obtain ⟨x, rest⟩ := v
      simpa [booksUniqueISBN, removeObserver, hspl] using h
  | searchByTitle q => exact h
  | searchByAuthor q => exact h
  | searchByISBN q => exact h
  | search q =>
    show booksUniqueISBN (search s q).2.2
    rw [search_state]
    exact h
  | printAllBooks => exact h
  | printAllLoans => exact h

/-- C3: starting from the empty catalog, after any sequence of operations the
book collection holds at most one record per ISBN value (pairwise distinct
ISBN fields); since every point of a run is reached by some sequence, the
invariant holds at every point. -/
theorem isbn_unique_invariant (ops : List Op) :
    booksUniqueISBN (execList initLib ops) := by
  have main : ∀ s, booksUniqueISBN s → booksUniqueISBN (execList s ops) := by
    induction ops with
    | nil => exact fun s hs => hs
    | cons op ops ih => exact fun s hs => ih (step s op) (step_books_unique s op hs)
  exact main initLib (by simp [booksUniqueISBN, initLib])

/-- C4: addBook on a catalog already containing a book with the given ISBN
emits an error-class event and performs no mutation, so the originally stored
record is unaltered. -/
theorem addBook_duplicate_rejected (s : LibraryManager) (t2 a2 i : String)
    (h : ∃ b ∈ s.books, b.ISBN = i) :
    addBook s t2 a2 i
      = (s, [Event.error ("[ERROR] El libro con ISBN " ++ i
          ++ " ya existe en la biblioteca.")]) := by
  obtain ⟨b, hb, hbi⟩ := h
  have hany : s.books.any (fun book => book.ISBN == i) = true :=
    List.any_eq_true.mpr ⟨b, hb, by simp [hbi]⟩
  simp [addBook, hany]

/-- Witness for C4: the demo's duplicate insertion of ISBN 123456789. -/
theorem addBook_duplicate_rejected_witness :
    addBook libWithGatsby "1984" "George Orwell" "123456789"
      = (libWithGatsby, [Event.error ("[ERROR] El libro con ISBN " ++ "123456789"
          ++ " ya existe en la biblioteca.")]) :=
  addBook_duplicate_rejected libWithGatsby "1984" "George Orwell" "123456789"
    ⟨gatsby, by decide, rfl⟩

/-- C8: loanBook on an unknown ISBN warns and changes nothing (the warning is
the only event, so no Notifier call is issued); on a known ISBN it appends
exactly one new loan record carrying the ISBN, the user and the current
timestamp, whatever loans are already outstanding. -/
theorem loanBook_spec (s : LibraryManager) (i u : String) (now : Nat) :
    ((∀ b ∈ s.books, b.ISBN ≠ i) →
      loanBook s i u now
        = (s, [Event.warn ("[WARNING] Intento de préstamo de un libro inexistente con ISBN: "
            ++ i)]))
    ∧ ((∃ b ∈ s.books, b.ISBN = i) →
      (loanBook s i u now).1
        = { s with loans := s.loans ++ [{ ISBN := i, userID := u, date := now }] }) := by
  constructor
  · intro hno
    have hfind : s.books.find? (fun b => b.ISBN == i) = none := by
      rw [List.find?_eq_none]
      intro b hb
      simp [hno b hb]
    simp [loanBook, hfind]
  · rintro ⟨b, hb, hbi⟩
    cases hfind : s.books.find? (fun b => b.ISBN == i) with
    | none =>
      rw [List.find?_eq_none] at hfind
      exact absurd (by simp [hbi]) (hfind b hb)
    | some b' => simp [loanBook, hfind]

/-- Witness for C8: an unknown-ISBN loan is a warning no-op, and a loan of the
demo book succeeds while the same (ISBN, user) pair is already out. -/
theorem loanBook_spec_witness :
    (loanBook libWithGatsby "999" "user01" 5
      = (libWithGatsby,
         [Event.warn ("[WARNING] Intento de préstamo de un libro inexistente con ISBN: "
           ++ "999")]))
    ∧ ((loanBook libWithLoan "123456789" "user01" 5).1
      = { libWithLoan with
            loans := libWithLoan.loans
              ++ [{ ISBN := "123456789", userID := "user01", date := 5 }] }) :=
  ⟨(loanBook_spec libWithGatsby "999" "user01" 5).1 (by decide),
   (loanBook_spec libWithLoan "123456789" "user01" 5).2 ⟨gatsby, by decide, rfl⟩⟩

/-- C9: removeBook on an unknown ISBN emits a warning and changes nothing; when
the catalog splits as pre ++ b :: post with b the first record carrying the
ISBN, removeBook removes exactly that record, keeps all other books, and logs
an informational event naming the removed title. -/
theorem removeBook_spec (s : LibraryManager) (i : String) :
    ((∀ b ∈ s.books, b.ISBN ≠ i) →
      removeBook s i
        = (s, [Event.warn ("[WARNING] Intento de eliminar un libro inexistente con ISBN: "
            ++ i)]))
    ∧ (∀ pre b post, s.books = pre ++ b :: post → b.ISBN = i →
        (∀ b' ∈ pre, b'.ISBN ≠ i) →
        removeBook s i
          = ({ s with books := pre ++ post },
             [Event.log ("[INFO] Libro eliminado: " ++ b.title ++ " (ISBN: " ++ i ++ ")")])) := by
  constructor
  · intro hno
    have hspl : spliceFirst (fun b => b.ISBN == i) s.books = none :=
      spliceFirst_none_of _ _ (fun b hb => by simp [hno b hb])
    simp [removeBook, hspl]
  · intro pre b post hsplit hbi hpre
    have hspl : spliceFirst (fun b => b.ISBN == i) s.books = some (b, pre ++ post) := by
      rw [hsplit]
      exact spliceFirst_some_of _ pre b post (by simp [hbi])
        (fun y hy => by simp [hpre y hy])
    simp [removeBook, hspl]

/-- Witness for C9: removing an absent ISBN warns; removing the demo book
deletes it and logs its title. -/
theorem removeBook_spec_witness :
    (removeBook libWithGatsby "999"
      = (libWithGatsby,
         [Event.warn ("[WARNING] Intento de eliminar un libro inexistente con ISBN: "
           ++ "999")]))
    ∧ (removeBook libWithGatsby "123456789"
      = ({ libWithGatsby with books := ([] : List Book) ++ [] },
         [Event.log ("[INFO] Libro eliminado: " ++ gatsby.title ++ " (ISBN: "
           ++ "123456789" ++ ")")])) :=
  ⟨(removeBook_spec libWithGatsby "999").1 (by decide),
   (removeBook_spec libWithGatsby "123456789").2 [] gatsby [] rfl rfl (by decide)⟩

/-- C10: the read operations searchByTitle, searchByAuthor, searchByISBN,
search, printAllBooks and printAllLoans return the manager state (books, loans
and observers) unchanged. -/
theorem read_operations_preserve_state (s : LibraryManager) (q : String) :
    (searchByTitle s q).2 = s ∧ (searchByAuthor s q).2 = s ∧ (searchByISBN s q).2 = s
      ∧ (search s q).2.2 = s ∧ (printAllBooks s).2 = s ∧ (printAllLoans s).2 = s :=
  ⟨rfl, rfl, rfl, search_state s q, rfl, rfl⟩

/-- C5: returnBook with no loan matching both ISBN and user warns and changes
nothing (hence a second return after a single matching loan is a no-op
warning); when the loans split as pre ++ l :: post with l the first match, the
removal of exactly l commits, the thank-you email goes out through the private
sendEmail when the book still exists, and an error-class event replaces it when
the book is gone from the catalog while the removal still commits. -/
theorem returnBook_spec (s : LibraryManager) (i u : String) :
    ((∀ l ∈ s.loans, ¬(l.ISBN = i ∧ l.userID = u)) →
      returnBook s i u
        = (s, [Event.warn ("[WARNING] Intento de devolución de un libro no prestado: ISBN "
            ++ i ++ ", Usuario " ++ u)]))
    ∧ (∀ pre l post, s.loans = pre ++ l :: post → l.ISBN = i → l.userID = u →
        (∀ l' ∈ pre, ¬(l'.ISBN = i ∧ l'.userID = u)) →
        ((returnBook s i u).1 = { s with loans := pre ++ post }
          ∧ ((∃ b ∈ s.books, b.ISBN = i) →
              (returnBook s i u).2
                = Event.log ("[INFO] Devolución registrada: " ++ toString l.date
                    ++ ": Usuario " ++ u ++ ", Libro ISBN " ++ i)
                  :: sendEmail u ("Has devuelto el libro con ISBN " ++ i ++ ". ¡Gracias!"))
          ∧ ((∀ b ∈ s.books, b.ISBN ≠ i) →
              (returnBook s i u).2
                = [Event.log ("[INFO] Devolución registrada: " ++ toString l.date
                    ++ ": Usuario " ++ u ++ ", Libro ISBN " ++ i),
                   Event.error ("[ERROR] El libro con ISBN " ++ i
                    ++ " no se encontró en la biblioteca.")])))
    ∧ (∀ pre l post, s.loans = pre ++ l :: post → l.ISBN = i → l.userID = u →
        (∀ l' ∈ pre ++ post, ¬(l'.ISBN = i ∧ l'.userID = u)) →
        returnBook (returnBook s i u).1 i u
          = ((returnBook s i u).1,
             [Event.warn ("[WARNING] Intento de devolución de un libro no prestado: ISBN "
               ++ i ++ ", Usuario " ++ u)])) := by
  have hsome : ∀ pre (l : Loan) post, s.loans = pre ++ l :: post → l.ISBN = i →
      l.userID = u → (∀ l' ∈ pre, ¬(l'.ISBN = i ∧ l'.userID = u)) →
      spliceFirst (fun loan => loan.ISBN == i && loan.userID == u) s.loans
        = some (l, pre ++ post) := by
    intro pre l post hsplit hli hlu hpre
    rw [hsplit]
    exact spliceFirst_some_of _ pre l post (by simp [hli, hlu])
      (fun y hy => loanMatch_false y i u (hpre y hy))
  refine ⟨?_, ?_, ?_⟩
  · intro hno
    have hspl : spliceFirst (fun loan => loan.ISBN == i && loan.userID == u) s.loans = none :=
      spliceFirst_none_of _ _ (fun l hl => loanMatch_false l i u (hno l hl))
    simp [returnBook, hspl]
  · intro pre l post hsplit hli hlu hpre
    have hspl := hsome pre l post hsplit hli hlu hpre
    refine ⟨?_, ?_, ?_⟩
    · cases hf : s.books.find? (fun b => b.ISBN == i) <;> simp [returnBook, hspl, hf]
    · rintro ⟨b, hb, hbi⟩
      cases hf : s.books.find? (fun b => b.ISBN == i) with
      | none =>
        rw [List.find?_eq_none] at hf
        exact absurd (by simp [hbi]) (hf b hb)
      | some b' => simp [returnBook, hspl, hf]
    · intro hnob
      have hf : s.books.find? (fun b => b.ISBN == i) = none := by
        rw [List.find?_eq_none]
        intro b hb
        simp [hnob b hb]
      simp [returnBook, hspl, hf]
  · intro pre l post hsplit hli hlu hall
    have hpre : ∀ l' ∈ pre, ¬(l'.ISBN = i ∧ l'.userID = u) :=
      fun l' hl' => hall l' (List.mem_append_left post hl')
    have hspl := hsome pre l post hsplit hli hlu hpre
    have h1 : (returnBook s i u).1 = { s with loans := pre ++ post } := by
      cases hf : s.books.find? (fun b => b.ISBN == i) <;> simp [returnBook, hspl, hf]
    rw [h1]
    have hspl2 : spliceFirst (fun loan => loan.ISBN == i && loan.userID == u)
        (pre ++ post) = none :=
      spliceFirst_none_of _ _ (fun l' hl' => loanMatch_false l' i u (hall l' hl'))
    simp [returnBook, hspl2]

/-- Witness for C5 on the demo scenario: a return with no prior loan warns; the
return of the outstanding loan removes it and emails through the private
sendEmail; the same return against a catalog whose book was removed still
commits and reports the error-class event; the second return is a no-op. -/
theorem returnBook_spec_witness :
    (returnBook libWithGatsby "123456789" "user01"
      = (libWithGatsby,
         [Event.warn ("[WARNING] Intento de devolución de un libro no prestado: ISBN "
           ++ "123456789" ++ ", Usuario " ++ "user01")]))
    ∧ ((returnBook libWithLoan "123456789" "user01").1
        = { libWithLoan with loans := ([] : List Loan) ++ [] })
    ∧ ((returnBook libWithLoan "123456789" "user01").2
        = Event.log ("[INFO] Devolución registrada: " ++ toString loan0.date
            ++ ": Usuario " ++ "user01" ++ ", Libro ISBN " ++ "123456789")
          :: sendEmail "user01" ("Has devuelto el libro con ISBN " ++ "123456789"
            ++ ". ¡Gracias!"))
    ∧ ((returnBook libLoanNoBook "123456789" "user01").1
        = { libLoanNoBook with loans := ([] : List Loan) ++ [] })
    ∧ ((returnBook libLoanNoBook "123456789" "user01").2
        = [Event.log ("[INFO] Devolución registrada: " ++ toString loan0.date
            ++ ": Usuario " ++ "user01" ++ ", Libro ISBN " ++ "123456789"),
           Event.error ("[ERROR] El libro con ISBN " ++ "123456789"
            ++ " no se encontró en la biblioteca.")])
    ∧ (returnBook (returnBook libWithLoan "123456789" "user01").1 "123456789" "user01"
        = ((returnBook libWithLoan "123456789" "user01").1,
           [Event.warn ("[WARNING] Intento de devolución de un libro no prestado: ISBN "
             ++ "123456789" ++ ", Usuario " ++ "user01")])) :=
  ⟨(returnBook_spec libWithGatsby "123456789" "user01").1 (by decide),
   ((returnBook_spec libWithLoan "123456789" "user01").2.1 [] loan0 [] rfl rfl rfl
     (by decide)).1,
   ((returnBook_spec libWithLoan "123456789" "user01").2.1 [] loan0 [] rfl rfl rfl
     (by decide)).2.1 ⟨gatsby, by decide, rfl⟩,
   ((returnBook_spec libLoanNoBook "123456789" "user01").2.1 [] loan0 [] rfl rfl rfl
     (by decide)).1,
   ((returnBook_spec libLoanNoBook "123456789" "user01").2.1 [] loan0 [] rfl rfl rfl
     (by decide)).2.2 (by decide),
   (returnBook_spec libWithLoan "123456789" "user01").2.2 [] loan0 [] rfl rfl rfl
     (by decide)⟩

/-- C6 counterexample: on a catalog holding one book, search with the empty
string returns that book — JavaScript includes with the empty needle is always
true — not the empty sequence the claim requires for every catalog state. -/
theorem search_empty_query_returns_catalog :
    (search libWithGatsby "").1 = [gatsby] ∧ [gatsby] ≠ ([] : List Book) := by
  exact ⟨by decide, by decide⟩

/-- C6 (amended): search with a query matching no book's title (substring),
author (substring) or ISBN (exact) returns the empty sequence and only logs an
informational no-results message, raising no error; the empty-string query
instead matches every title, so search("") returns the whole catalog (empty
only when the catalog is empty). -/
theorem search_no_match_returns_empty (s : LibraryManager) (q : String) :
    ((∀ b ∈ s.books, strIncludes b.title q = false ∧ strIncludes b.author q = false
        ∧ b.ISBN ≠ q) →
      (search s q).1 = []
        ∧ (search s q).2.1
            = [Event.log ("[INFO] Búsqueda para \"" ++ q ++ "\" no produjo resultados.")])
    ∧ (search s "").1 = s.books := by
  constructor
  · intro h
    have hfilter : s.books.filter (fun book =>
        strIncludes book.title q || strIncludes book.author q || book.ISBN == q) = [] := by
      rw [List.filter_eq_nil_iff]
      intro b hb
      obtain ⟨h1, h2, h3⟩ := h b hb
      simp [h1, h2, h3]
    constructor
    · simp [search, hfilter]
    · simp [search, hfilter]
  · have hall : s.books.filter (fun book =>
        strIncludes book.title "" || strIncludes book.author "" || book.ISBN == "")
          = s.books := by
      rw [List.filter_eq_self]
      intro b _
      simp [strIncludes_empty]
    simp only [search, hall]
    split <;> rfl

/-- Witness for C6 (amended): a query matching nothing on the demo catalog. -/
theorem search_no_match_returns_empty_witness :
    ((search libWithGatsby "zzz").1 = []
      ∧ (search libWithGatsby "zzz").2.1
          = [Event.log ("[INFO] Búsqueda para \"" ++ "zzz" ++ "\" no produjo resultados.")])
    ∧ (search libWithGatsby "").1 = libWithGatsby.books :=
  ⟨(search_no_match_returns_empty libWithGatsby "zzz").1 (by decide),
   (search_no_match_returns_empty libWithGatsby "zzz").2⟩

/-- C7 counterexample: registering the same observer twice yields a registry
with two entries, so addObserver is not idempotent. -/
theorem addObserver_duplicate_registration :
    (addObserver (addObserver initLib ana) ana).observers = [ana, ana]
      ∧ addObserver (addObserver initLib ana) ana ≠ addObserver initLib ana := by
  exact ⟨by decide, by decide⟩

/-- C7 (amended): addObserver always appends the listener, so a second
registration of an already-registered listener adds a duplicate entry rather
than leaving the registry equal; removeObserver of a listener that is not
registered is a silent no-op leaving the registry unchanged. -/
theorem observer_registry_spec (s : LibraryManager) (u : User) :
    (addObserver s u).observers = s.observers ++ [u]
      ∧ (u ∉ s.observers → removeObserver s u = s) := by
  refine ⟨rfl, ?_⟩
  intro hu
  have hspl : spliceFirst (fun x => x == u) s.observers = none :=
    spliceFirst_none_of _ _ (fun x hx => by
      rw [Bool.eq_false_iff]
      intro hxe
      exact hu (eq_of_beq hxe ▸ hx))
  simp [removeObserver, hspl]

/-- Witness for C7 (amended): appending to the empty registry and removing from
it. -/
theorem observer_registry_spec_witness :
    (addObserver initLib ana).observers = initLib.observers ++ [ana]
      ∧ removeObserver initLib ana = initLib :=
  ⟨(observer_registry_spec initLib ana).1,
   (observer_registry_spec initLib ana).2 (by decide)⟩

/-- C1: with one registered observer, a successful addBook emits only its
informational log — no observerUpdate event reaches the observer, because the
addBook body never calls notifyObservers, even though notifyObservers on the
resulting state would generate exactly the claimed notification. -/
theorem addBook_does_not_notify_observers :
    (addBook libWithObserver "El Gran Gatsby" "F. Scott Fitzgerald" "123456789").2
        = [Event.log ("[INFO] Libro agregado: " ++ "El Gran Gatsby" ++ " (ISBN: "
            ++ "123456789" ++ ")")]
      ∧ Event.observerUpdate "Ana" "El Gran Gatsby"
          ∉ (addBook libWithObserver "El Gran Gatsby" "F. Scott Fitzgerald" "123456789").2
      ∧ notifyObservers
            (addBook libWithObserver "El Gran Gatsby" "F. Scott Fitzgerald" "123456789").1
            "El Gran Gatsby"
          = [Event.observerUpdate "Ana" "El Gran Gatsby"] := by
  exact ⟨by decide, by decide, by decide⟩

/-- C2: on a successful loan and on a successful return, every emitted event is
a console event — the email text comes from the private console-logging
sendEmail — and the emailServiceSend event marking a call to the injected
IEmailService never occurs. -/
theorem injected_email_service_never_invoked :
    ((loanBook libWithGatsby "123456789" "user01" 0).2
        = Event.log ("[INFO] Préstamo registrado: " ++ "El Gran Gatsby" ++ " a " ++ "user01")
          :: sendEmail "user01" ("Has solicitado el libro " ++ "El Gran Gatsby"))
      ∧ Event.emailServiceSend "user01" ("Has solicitado el libro " ++ "El Gran Gatsby")
          ∉ (loanBook libWithGatsby "123456789" "user01" 0).2
      ∧ ((returnBook libWithLoan "123456789" "user01").2
        = Event.log ("[INFO] Devolución registrada: " ++ toString loan0.date
            ++ ": Usuario " ++ "user01" ++ ", Libro ISBN " ++ "123456789")
          :: sendEmail "user01" ("Has devuelto el libro con ISBN " ++ "123456789"
            ++ ". ¡Gracias!"))
      ∧ Event.emailServiceSend "user01" ("Has devuelto el libro con ISBN " ++ "123456789"
            ++ ". ¡Gracias!")
          ∉ (returnBook libWithLoan "123456789" "user01").2 := by
  exact ⟨by decide, by decide, by decide, by decide⟩
